import Mathlib

/-!
# BidForgeAI — verification of the job registry and workflow orchestrator

Shallow embedding of the Python sources:

* `agents/job_queue.py` — the in-memory `JobQueue` over `ProcessingJob`
  records (`agents/types.py`);
* `agents/smart_orchestrator.py` — the `BidForgeOrchestrator` LangGraph
  workflow (`_build_workflow`, the node handlers, the routing functions
  and `process_rfp`);
* `agents/sketch_agent_v2.py` — the `SketchAgentNode.__call__` handler.

Wall-clock times (`datetime.now()`) are modelled by an explicit `now : Nat`
argument to every operation that reads the clock.  Python `dict` is modelled
by an insertion-ordered association list with overwrite-in-place semantics.
External effects (the vision model's answers, the stubbed decision logic)
are parameters of the embedding, never hard-wired simplifications.
-/

namespace BidForge

/-! ## Job queue (`agents/types.py`, `agents/job_queue.py`) -/

/-- `JobStatus` enum from `agents/types.py`. -/
inductive JobStatus
  | PENDING
  | PROCESSING
  | COMPLETED
  | FAILED
  | CANCELLED
  deriving DecidableEq, Repr

/-- `ProcessingJob` pydantic model from `agents/types.py`.
`input_data` is an opaque payload (modelled as `String`); timestamps are
`Nat` clock readings; `processing_time` (seconds) is the signed difference
of two clock readings. -/
structure ProcessingJob where
  job_id : String
  status : JobStatus
  created_at : Nat
  updated_at : Nat
  completed_at : Option Nat := none
  job_type : String
  input_data : String
  result : Option String := none
  error_message : Option String := none
  progress_percent : Int := 0
  current_step : Option String := none
  total_steps : Option Nat := none
  processing_time : Option Int := none
  deriving DecidableEq, Repr

/-- Python `dict` lookup (`d.get(k)` / `k in d`): first binding wins. -/
def dictGet : List (String × ProcessingJob) → String → Option ProcessingJob
  | [], _ => none
  | (k, v) :: rest, key => if k = key then some v else dictGet rest key

/-- Python `d[k] = v`: overwrite in place if present, else append. -/
def dictSet : List (String × ProcessingJob) → String → ProcessingJob →
    List (String × ProcessingJob)
  | [], key, v => [(key, v)]
  | (k, v0) :: rest, key, v =>
      if k = key then (key, v) :: rest else (k, v0) :: dictSet rest key v

/-- In-place mutation of `d[k]` when present (`if job_id in self.jobs: ...`);
absent keys leave the dict untouched. -/
def dictModify : List (String × ProcessingJob) → String →
    (ProcessingJob → ProcessingJob) → List (String × ProcessingJob)
  | [], _, _ => []
  | (k, v) :: rest, key, f =>
      if k = key then (key, f v) :: rest else (k, v) :: dictModify rest key f

/-- Python `del d[k]` (single binding removed; keys are unique). -/
def dictDelete : List (String × ProcessingJob) → String →
    List (String × ProcessingJob)
  | [], _ => []
  | (k, v) :: rest, key =>
      if k = key then rest else (k, v) :: dictDelete rest key

/-- `JobQueue.__init__`: `self.jobs` dict (the thread lock serialises the
operations; each operation is modelled as one atomic transition). -/
structure JobQueue where
  jobs : List (String × ProcessingJob)
  deriving DecidableEq, Repr

def JobQueue.empty : JobQueue := ⟨[]⟩

/-- `JobQueue.create_job`: unconditionally constructs a fresh PENDING record
and stores it under `job_id` (no presence check), returning the record.
Pydantic field defaults from `ProcessingJob` apply at construction. -/
def create_job (q : JobQueue) (job_id job_type input_data : String)
    (total_steps : Option Nat) (now : Nat) : JobQueue × ProcessingJob :=
  let job : ProcessingJob :=
    { job_id := job_id
      status := JobStatus.PENDING
      created_at := now
      updated_at := now
      job_type := job_type
      input_data := input_data
      total_steps := total_steps }
  (⟨dictSet q.jobs job_id job⟩, job)

/-- `JobQueue.get_job`. -/
def get_job (q : JobQueue) (job_id : String) : Option ProcessingJob :=
  dictGet q.jobs job_id

/-- Python truthiness of the `current_step` argument (`if current_step:`):
`None` and the empty string are falsy. -/
def stepTruthy : Option String → Bool
  | none => false
  | some s => !(s = "")

/-- `JobQueue.update_job`: when the id is present, sets `status` and
`updated_at` unconditionally, `progress_percent` when the argument is not
`None` (no range or monotonicity check — pydantic validates only at
construction), and `current_step` only when truthy. -/
def update_job (q : JobQueue) (job_id : String) (status : JobStatus)
    (progress_percent : Option Int) (current_step : Option String)
    (now : Nat) : JobQueue :=
  ⟨dictModify q.jobs job_id (fun job =>
    let job := { job with status := status, updated_at := now }
    let job := match progress_percent with
      | some p => { job with progress_percent := p }
      | none => job
    if stepTruthy current_step then { job with current_step := current_step }
    else job)⟩

/-- `JobQueue.complete_job`: when the id is present, sets status COMPLETED,
`result`, `completed_at`, `progress_percent := 100` and `processing_time`
(it does not touch `updated_at`).  No terminal-status check. -/
def complete_job (q : JobQueue) (job_id : String) (result : String)
    (now : Nat) : JobQueue :=
  ⟨dictModify q.jobs job_id (fun job =>
    { job with
      status := JobStatus.COMPLETED
      result := some result
      completed_at := some now
      progress_percent := 100
      processing_time := some ((now : Int) - (job.created_at : Int)) })⟩

/-- `JobQueue.fail_job`: when the id is present, sets status FAILED,
`error_message` and `updated_at`.  No terminal-status check. -/
def fail_job (q : JobQueue) (job_id : String) (error : String)
    (now : Nat) : JobQueue :=
  ⟨dictModify q.jobs job_id (fun job =>
    { job with
      status := JobStatus.FAILED
      error_message := some error
      updated_at := now })⟩

/-- `JobQueue.cancel_job`: when the id is present, sets status CANCELLED and
`updated_at`.  No terminal-status check. -/
def cancel_job (q : JobQueue) (job_id : String) (now : Nat) : JobQueue :=
  ⟨dictModify q.jobs job_id (fun job =>
    { job with
      status := JobStatus.CANCELLED
      updated_at := now })⟩

/-- `JobQueue.delete_job`. -/
def delete_job (q : JobQueue) (job_id : String) : JobQueue :=
  ⟨dictDelete q.jobs job_id⟩

/-- One registry operation (the public mutators of `JobQueue`). -/
inductive Op
  | create (job_id job_type input_data : String)
      (total_steps : Option Nat) (now : Nat)
  | update (job_id : String) (status : JobStatus)
      (progress_percent : Option Int) (current_step : Option String) (now : Nat)
  | complete (job_id result : String) (now : Nat)
  | fail (job_id error : String) (now : Nat)
  | cancel (job_id : String) (now : Nat)
  | delete (job_id : String)
  deriving DecidableEq, Repr

/-- Apply one operation to the registry. -/
def applyOp (q : JobQueue) : Op → JobQueue
  | Op.create job_id job_type input_data total_steps now =>
      (create_job q job_id job_type input_data total_steps now).1
  | Op.update job_id status pp cs now => update_job q job_id status pp cs now
  | Op.complete job_id result now => complete_job q job_id result now
  | Op.fail job_id error now => fail_job q job_id error now
  | Op.cancel job_id now => cancel_job q job_id now
  | Op.delete job_id => delete_job q job_id

/-- Run a sequence of registry operations. -/
def runOps (q : JobQueue) (ops : List Op) : JobQueue :=
  ops.foldl applyOp q

/-- Whether an operation is a `complete_job` or `fail_job` call. -/
def Op.setsResultOrError : Op → Bool
  | Op.complete _ _ _ => true
  | Op.fail _ _ _ => true
  | _ => false

/-! ### Association-list lemmas -/

theorem dictGet_dictSet (l : List (String × ProcessingJob)) (k k' : String)
    (v : ProcessingJob) :
    dictGet (dictSet l k v) k' = if k = k' then some v else dictGet l k' := by
  induction l with
  | nil => by_cases h : k = k' <;> simp [dictSet, dictGet, h]
  | cons p rest ih =>
      obtain ⟨k0, v0⟩ := p
      by_cases h0 : k0 = k
      · by_cases h1 : k = k' <;> simp [dictSet, dictGet, h0, h1]
      · by_cases h1 : k0 = k'
        · subst h1
          have hk : ¬ k = k0 := fun h => h0 h.symm
          simp [dictSet, dictGet, h0, hk]
        · simp [dictSet, dictGet, h0, h1, ih]

theorem dictGet_dictModify (l : List (String × ProcessingJob)) (k k' : String)
    (f : ProcessingJob → ProcessingJob) :
    dictGet (dictModify l k f) k' =
      if k = k' then (dictGet l k).map f else dictGet l k' := by
  induction l with
  | nil => by_cases h : k = k' <;> simp [dictModify, dictGet, h]
  | cons p rest ih =>
      obtain ⟨k0, v0⟩ := p
      by_cases h0 : k0 = k
      · subst h0
        by_cases h1 : k0 = k' <;> simp [dictModify, dictGet, h1]
      · by_cases h1 : k0 = k'
        · subst h1
          have hk : ¬ k = k0 := fun h => h0 h.symm
          simp [dictModify, dictGet, h0, hk]
        · simp [dictModify, dictGet, h0, h1, ih]

theorem length_dictSet (l : List (String × ProcessingJob)) (k : String)
    (v : ProcessingJob) :
    (dictSet l k v).length =
      if (dictGet l k).isSome then l.length else l.length + 1 := by
  induction l with
  | nil => simp [dictSet, dictGet]
  | cons p rest ih =>
      obtain ⟨k0, v0⟩ := p
      by_cases h0 : k0 = k
      · simp [dictSet, dictGet, h0]
      · simp [dictSet, dictGet, h0, ih]
        by_cases h1 : (dictGet rest k).isSome <;> simp [h1]

theorem mem_dictSet (l : List (String × ProcessingJob)) (k : String)
    (v : ProcessingJob) (p : String × ProcessingJob)
    (hp : p ∈ dictSet l k v) : p = (k, v) ∨ p ∈ l := by
  induction l with
  | nil => simpa [dictSet] using hp
  | cons q rest ih =>
      obtain ⟨k0, v0⟩ := q
      by_cases h0 : k0 = k
      · simp [dictSet, h0] at hp
        rcases hp with hp | hp
        · exact Or.inl hp
        · exact Or.inr (List.mem_cons_of_mem _ hp)
      · simp [dictSet, h0] at hp
        rcases hp with hp | hp
        · exact Or.inr (by simp [hp])
        · rcases ih hp with h | h
          · exact Or.inl h
          · exact Or.inr (List.mem_cons_of_mem _ h)

theorem mem_dictModify (l : List (String × ProcessingJob)) (k : String)
    (f : ProcessingJob → ProcessingJob) (p : String × ProcessingJob)
    (hp : p ∈ dictModify l k f) :
    p ∈ l ∨ ∃ v0, (k, v0) ∈ l ∧ p = (k, f v0) := by
  induction l with
  | nil => simp [dictModify] at hp
  | cons q rest ih =>
      obtain ⟨k0, v0⟩ := q
      by_cases h0 : k0 = k
      · subst h0
        simp [dictModify] at hp
        rcases hp with hp | hp
        · exact Or.inr ⟨v0, by simp, hp⟩
        · exact Or.inl (List.mem_cons_of_mem _ hp)
      · simp [dictModify, h0] at hp
        rcases hp with hp | hp
        · exact Or.inl (by simp [hp])
        · rcases ih hp with h | h
          · exact Or.inl (List.mem_cons_of_mem _ h)
          · rcases h with ⟨w, hw, hpw⟩
            exact Or.inr ⟨w, List.mem_cons_of_mem _ hw, hpw⟩

theorem mem_dictDelete (l : List (String × ProcessingJob)) (k : String)
    (p : String × ProcessingJob) (hp : p ∈ dictDelete l k) : p ∈ l := by
  induction l with
  | nil => simp [dictDelete] at hp
  | cons q rest ih =>
      obtain ⟨k0, v0⟩ := q
      by_cases h0 : k0 = k
      · simp [dictDelete, h0] at hp
        exact List.mem_cons_of_mem _ hp
      · simp [dictDelete, h0] at hp
        rcases hp with hp | hp
        · simp [hp]
        · exact List.mem_cons_of_mem _ (ih hp)

theorem dictGet_mem (l : List (String × ProcessingJob)) (k : String)
    (v : ProcessingJob) (h : dictGet l k = some v) : (k, v) ∈ l := by
  induction l with
  | nil => simp [dictGet] at h
  | cons q rest ih =>
      obtain ⟨k0, v0⟩ := q
      by_cases h0 : k0 = k
      · subst h0
        simp [dictGet] at h
        simp [h]
      · simp [dictGet, h0] at h
        exact List.mem_cons_of_mem _ (ih h)

/-! ## Orchestrator workflow (`agents/smart_orchestrator.py`,
`agents/sketch_agent_v2.py`)

The compiled LangGraph of `_build_workflow` is a fixed node set with
unconditional edges plus two conditional routers
(`_route_from_classifier`, `_route_decision`).  The engine repeatedly
applies the current node's handler to the state and follows the edge chosen
from the handler's output state. -/

/-- Workflow graph nodes of `_build_workflow`, plus LangGraph's reserved
terminal marker `END`. -/
inductive Node
  | input_classifier
  | sketch_analysis
  | vector_store_agent
  | analysis_agent
  | decision_agent
  | generation_agent
  | review_agent
  | END
  deriving DecidableEq, Repr

/-- Message appended to `state["messages"]` by a handler (the formatted
string contents are abstracted to their template and arguments). -/
inductive Msg
  | process_rfp_request (rfp_id : String)
  | detected_sketches (count : Nat)
  | text_only_rfp
  | sketches_analyzed (count : Nat)
  | sketch_data_stored
  | analyzing_with_sketch_data
  | analyzing_text_only
  | decision_proceed
  | generating_with_sketches
  | generating_from_text
  | review_complete
  deriving DecidableEq, Repr

/-- `AgentState` dict as populated by `process_rfp` and the node handlers.
Keys always read through `.get` with a default are collapsed to the default
when absent (`images`, `sketch_metadata`, `requires_sketch_analysis`);
keys first written by a handler are `Option`s (`has_sketches`,
`sketch_count`, `decision`, `analysis_complete`).  Sketch images and
metadata entries are opaque (`String` ids); analysis outputs are opaque
tokens (`Nat`) produced by the vision-model oracle. -/
structure AgentState where
  messages : List Msg
  rfp_text : Option String := none
  images : List String := []
  sketch_metadata : List String := []
  project_context : Option String := none
  analysis_results : List Nat := []
  extracted_data_set : Bool := false
  embeddings : List Nat := []
  next_agent : Option String := none
  has_sketches : Option Bool := none
  sketch_count : Option Nat := none
  decision : Option String := none
  analysis_complete : Option Bool := none
  error : Option String := none
  requires_sketch_analysis : Bool := false
  retry_count : Nat := 0
  deriving DecidableEq, Repr

/-- `_input_classifier_node`: three sequential truthiness checks
(`images`, `sketch_metadata`, explicit flag), then the state update and
message, mirroring the source order. -/
def input_classifier_node (s : AgentState) : AgentState :=
  let has1 := !s.images.isEmpty
  let count1 := if !s.images.isEmpty then s.images.length else 0
  let has2 := has1 || !s.sketch_metadata.isEmpty
  let count2 := if !s.sketch_metadata.isEmpty then
    max count1 s.sketch_metadata.length else count1
  let has := has2 || s.requires_sketch_analysis
  { s with
    has_sketches := some has
    sketch_count := some count2
    messages := s.messages ++
      [if has then Msg.detected_sketches count2 else Msg.text_only_rfp]
    next_agent := some (if has then "sketch_analysis" else "analysis_agent") }

/-- `SketchAgentNode.__call__` from `agents/sketch_agent_v2.py`.
`vision : Nat → Nat` is the oracle for the per-sketch analysis outputs
(`SketchAgent.analyze_sketch` catches every exception internally and
returns an error output, so each call yields a value).  The handler:
with no images it records the error and sets `next_agent` to END;
otherwise it analyzes `zip(images, sketch_metadata)` — when that zip is
empty the average-confidence computation raises `ZeroDivisionError`,
which the outer `except` turns into a state-level error. -/
def sketch_agent_node (vision : Nat → Nat) (s : AgentState) : AgentState :=
  if s.images.isEmpty then
    { s with error := some "No images found", next_agent := some "__end__" }
  else
    let pairCount := min s.images.length s.sketch_metadata.length
    if pairCount = 0 then
      { s with
        error := some "Sketch Agent Error: division by zero"
        next_agent := some "__end__" }
    else
      let results := (List.range pairCount).map vision
      { s with
        analysis_results := results
        extracted_data_set := true
        embeddings := results
        messages := s.messages ++ [Msg.sketches_analyzed pairCount]
        next_agent := some "vector_store_agent" }

/-- `_vector_store_node`: appends a confirmation message only. -/
def vector_store_node (s : AgentState) : AgentState :=
  { s with messages := s.messages ++ [Msg.sketch_data_stored] }

/-- `_analysis_node`: message depends on `has_sketches`; marks
`analysis_complete`. -/
def analysis_node (s : AgentState) : AgentState :=
  { s with
    messages := s.messages ++
      [if s.has_sketches.getD false then Msg.analyzing_with_sketch_data
       else Msg.analyzing_text_only]
    analysis_complete := some true }

/-- `_decision_node`: the go/no-go logic is a stub in the source
(`state["decision"] = "generate"  # or "reject"`); the value it assigns is
the parameter `dec`.  The appended message is the fixed proceed message. -/
def decision_node (dec : String) (s : AgentState) : AgentState :=
  { s with
    decision := some dec
    messages := s.messages ++ [Msg.decision_proceed] }

/-- `_generation_agent`: message depends on `has_sketches`. -/
def generation_node (s : AgentState) : AgentState :=
  { s with
    messages := s.messages ++
      [if s.has_sketches.getD false then Msg.generating_with_sketches
       else Msg.generating_from_text] }

/-- `_review_agent`: appends the review message. -/
def review_node (s : AgentState) : AgentState :=
  { s with messages := s.messages ++ [Msg.review_complete] }

/-- `_route_from_classifier`: `state.get("has_sketches", False)`. -/
def route_from_classifier (s : AgentState) : String :=
  if s.has_sketches.getD false then "sketch_analysis" else "analysis_agent"

/-- Conditional edge map of the classifier
(`{"sketch_analysis": ..., "analysis_agent": ...}`). -/
def classifierEdges (r : String) : Option Node :=
  if r = "sketch_analysis" then some Node.sketch_analysis
  else if r = "analysis_agent" then some Node.analysis_agent
  else none

/-- `_route_decision`: `state.get("decision", "reject")`. -/
def route_decision (s : AgentState) : String :=
  s.decision.getD "reject"

/-- Conditional edge map of the decision agent
(`{"generate": generation_agent, "reject": END}`). -/
def decisionEdges (r : String) : Option Node :=
  if r = "generate" then some Node.generation_agent
  else if r = "reject" then some Node.END
  else none

/-- Apply the handler of a node to the state. -/
def applyNode (vision : Nat → Nat) (dec : String) :
    Node → AgentState → AgentState
  | Node.input_classifier, s => input_classifier_node s
  | Node.sketch_analysis, s => sketch_agent_node vision s
  | Node.vector_store_agent, s => vector_store_node s
  | Node.analysis_agent, s => analysis_node s
  | Node.decision_agent, s => decision_node dec s
  | Node.generation_agent, s => generation_node s
  | Node.review_agent, s => review_node s
  | Node.END, s => s

/-- Successor of a node given the handler's output state: the edges wired
in `_build_workflow`.  Every edge out of `sketch_analysis`,
`vector_store_agent`, `analysis_agent`, `generation_agent` and
`review_agent` is unconditional; only the two routers consult the state.
The `next_agent` field written by handlers is ignored by this graph.
`none` models LangGraph raising on an unmapped route value. -/
def nextNode : Node → AgentState → Option Node
  | Node.input_classifier, s => classifierEdges (route_from_classifier s)
  | Node.sketch_analysis, _ => some Node.vector_store_agent
  | Node.vector_store_agent, _ => some Node.analysis_agent
  | Node.analysis_agent, _ => some Node.decision_agent
  | Node.decision_agent, s => decisionEdges (route_decision s)
  | Node.generation_agent, _ => some Node.review_agent
  | Node.review_agent, _ => some Node.END
  | Node.END, _ => none

/-- The LangGraph engine loop: visit the current node (apply its handler),
follow the chosen edge, stop at `END`.  `fuel` bounds the number of steps;
the graph is acyclic, so fuel `10` never runs out from the entry point.
Returns the list of visited (executed) nodes and the final state. -/
def runGraph (vision : Nat → Nat) (dec : String) :
    Nat → Node → AgentState → List Node × AgentState
  | 0, _, s => ([], s)
  | fuel + 1, n, s =>
    if n = Node.END then ([], s)
    else
      let s1 := applyNode vision dec n s
      match nextNode n s1 with
      | some n2 =>
          let r := runGraph vision dec fuel n2 s1
          (n :: r.1, r.2)
      | none => ([n], s1)

/-- `workflow.ainvoke(initial_state)` from the entry point: the visited
stage list and the final state. -/
def invokeWorkflow (vision : Nat → Nat) (dec : String) (s : AgentState) :
    List Node × AgentState :=
  runGraph vision dec 10 Node.input_classifier s

/-- The stages a run visits, in execution order. -/
def visited (vision : Nat → Nat) (dec : String) (s : AgentState) :
    List Node :=
  (invokeWorkflow vision dec s).1

/-! ### `process_rfp` (`agents/smart_orchestrator.py`) -/

/-- The `metadata` dict argument of `process_rfp` (its three keys read by
the source: `rfp_id`, `sketches`, `context`). -/
structure Metadata where
  rfp_id : Option String := none
  sketches : List String := []
  context : Option String := none
  deriving DecidableEq, Repr

/-- Python runtime error raised by an attribute access on `None`. -/
inductive PyError
  | attributeError
  deriving DecidableEq, Repr

/-- The unguarded `metadata.get('rfp_id', 'unknown')` inside the first
message's f-string: on `metadata = None` this is `None.get(...)`, an
`AttributeError`. -/
def metadataGetRfpId : Option Metadata → Except PyError String
  | none => Except.error PyError.attributeError
  | some md => Except.ok (md.rfp_id.getD "unknown")

/-- Python truthiness of the `sketches` argument
(`bool(sketches)`: `None` and `[]` are falsy). -/
def sketchesTruthy : Option (List String) → Bool
  | none => false
  | some l => !l.isEmpty

/-- The `initial_state` dict literal of `process_rfp`.  The first entry
evaluates `metadata.get('rfp_id', 'unknown')` without a `None` guard, so
building the state can raise; the remaining `metadata` reads are guarded
by `if metadata else`. -/
def buildInitialState (rfp_text : String) (sketches : Option (List String))
    (metadata : Option Metadata) : Except PyError AgentState := do
  let rid ← metadataGetRfpId metadata
  Except.ok
    { messages := [Msg.process_rfp_request rid]
      rfp_text := some rfp_text
      images := sketches.getD []
      sketch_metadata := match metadata with
        | some md => md.sketches
        | none => []
      project_context := match metadata with
        | some md => md.context
        | none => none
      next_agent := some "input_classifier"
      error := none
      requires_sketch_analysis := sketchesTruthy sketches
      retry_count := 0 }

/-- `BidForgeOrchestrator.process_rfp`: build the initial state (which can
raise), then run the workflow.  Returns the visited stages and the final
state; an exception before `ainvoke` means no stage ran. -/
def process_rfp (rfp_text : String) (sketches : Option (List String))
    (metadata : Option Metadata) (vision : Nat → Nat) (dec : String) :
    Except PyError (List Node × AgentState) := do
  let s0 ← buildInitialState rfp_text sketches metadata
  Except.ok (invokeWorkflow vision dec s0)

/-! ### Trace-shape lemmas for the compiled graph -/

/-- The classifier's sequential truthiness checks, as one Bool. -/
def classifierFlag (s : AgentState) : Bool :=
  (!s.images.isEmpty || !s.sketch_metadata.isEmpty) || s.requires_sketch_analysis

theorem input_classifier_node_has_sketches (s : AgentState) :
    (input_classifier_node s).has_sketches = some (classifierFlag s) := by
  simp [input_classifier_node, classifierFlag]

/-- When the classifier detects sketches, the run executes classifier,
sketch analysis, vector store, analysis and decision in order, then the
decision route: `generate` continues to generation and review, anything
else ends the run. -/
theorem visited_sketch_path (vision : Nat → Nat) (dec : String)
    (s : AgentState) (hb : classifierFlag s = true) :
    visited vision dec s =
      [Node.input_classifier, Node.sketch_analysis, Node.vector_store_agent,
       Node.analysis_agent, Node.decision_agent] ++
      (if dec = "generate" then [Node.generation_agent, Node.review_agent]
       else []) := by
  have hb' : ((!s.images.isEmpty || !s.sketch_metadata.isEmpty)
      || s.requires_sketch_analysis) = true := hb
  by_cases hdec : dec = "generate"
  · simp [visited, invokeWorkflow, runGraph, applyNode, nextNode,
      input_classifier_node, route_from_classifier, classifierEdges,
      sketch_agent_node, vector_store_node, analysis_node, decision_node,
      route_decision, decisionEdges, generation_node, review_node, hb', hdec]
  · by_cases hdec2 : dec = "reject"
    · simp [visited, invokeWorkflow, runGraph, applyNode, nextNode,
        input_classifier_node, route_from_classifier, classifierEdges,
        sketch_agent_node, vector_store_node, analysis_node, decision_node,
        route_decision, decisionEdges, generation_node, review_node,
        hb', hdec, hdec2]
    · simp [visited, invokeWorkflow, runGraph, applyNode, nextNode,
        input_classifier_node, route_from_classifier, classifierEdges,
        sketch_agent_node, vector_store_node, analysis_node, decision_node,
        route_decision, decisionEdges, generation_node, review_node,
        hb', hdec, hdec2]

/-- When the classifier detects no sketches, the run executes classifier,
analysis and decision in order, then the decision route. -/
theorem visited_text_path (vision : Nat → Nat) (dec : String)
    (s : AgentState) (hb : classifierFlag s = false) :
    visited vision dec s =
      [Node.input_classifier, Node.analysis_agent, Node.decision_agent] ++
      (if dec = "generate" then [Node.generation_agent, Node.review_agent]
       else []) := by
  have hb' : ((!s.images.isEmpty || !s.sketch_metadata.isEmpty)
      || s.requires_sketch_analysis) = false := hb
  by_cases hdec : dec = "generate"
  · simp [visited, invokeWorkflow, runGraph, applyNode, nextNode,
      input_classifier_node, route_from_classifier, classifierEdges,
      analysis_node, decision_node, route_decision, decisionEdges,
      generation_node, review_node, hb', hdec]
  · by_cases hdec2 : dec = "reject"
    · simp [visited, invokeWorkflow, runGraph, applyNode, nextNode,
        input_classifier_node, route_from_classifier, classifierEdges,
        analysis_node, decision_node, route_decision, decisionEdges,
        generation_node, review_node, hb', hdec, hdec2]
    · simp [visited, invokeWorkflow, runGraph, applyNode, nextNode,
        input_classifier_node, route_from_classifier, classifierEdges,
        analysis_node, decision_node, route_decision, decisionEdges,
        generation_node, review_node, hb', hdec, hdec2]

/-! ## Concrete registry states used by the counterexamples and witnesses -/

/-- Registry holding one freshly created job `job-1` (created at time 0). -/
def exampleJobQueue : JobQueue :=
  (create_job JobQueue.empty "job-1" "sketch_analysis" "input" none 0).1

/-- The record `create_job` stores for `job-1` above. -/
def exampleJob : ProcessingJob :=
  { job_id := "job-1", status := JobStatus.PENDING, created_at := 0,
    updated_at := 0, job_type := "sketch_analysis", input_data := "input" }

/-- `exampleJobQueue` after `complete_job "job-1" "res"` at time 1. -/
def exampleCompletedQueue : JobQueue :=
  complete_job exampleJobQueue "job-1" "res" 1

/-- The completed record held by `exampleCompletedQueue`. -/
def exampleCompletedJob : ProcessingJob :=
  { job_id := "job-1", status := JobStatus.COMPLETED, created_at := 0,
    updated_at := 0, completed_at := some 1, job_type := "sketch_analysis",
    input_data := "input", result := some "res", progress_percent := 100,
    processing_time := some 1 }

/-! ## The claims -/

/-- **C1 (counterexample).** The claim "once the job's status is COMPLETED,
FAILED, or CANCELLED, any subsequent updateProgress/complete/fail/cancel
call is a no-op" is false on the code: after `complete_job` (status
COMPLETED, `updated_at` 0), a `cancel_job` at time 2 moves the status to
CANCELLED and the timestamp to 2 — `update_job`/`complete_job`/`fail_job`/
`cancel_job` never test for a terminal status. -/
theorem cancel_after_complete_changes_status :
    (get_job exampleCompletedQueue "job-1").map ProcessingJob.status
      = some JobStatus.COMPLETED
    ∧ (get_job exampleCompletedQueue "job-1").map ProcessingJob.updated_at
      = some 0
    ∧ (get_job (cancel_job exampleCompletedQueue "job-1" 2) "job-1").map
        ProcessingJob.status = some JobStatus.CANCELLED
    ∧ (get_job (cancel_job exampleCompletedQueue "job-1" 2) "job-1").map
        ProcessingJob.updated_at = some 2 := by decide

/-- **C1 (amended).** Terminal states are not absorbing: for every job
present in the registry — whatever its current status, terminal included —
a subsequent `update_job` sets the requested status and touches
`updated_at`; `fail_job`, `cancel_job` and `complete_job` likewise apply
their full effect.  Only calls on an absent job id are no-ops. -/
theorem job_ops_apply_regardless_of_terminal_status
    (q : JobQueue) (job_id : String) (j : ProcessingJob) (st : JobStatus)
    (pp : Option Int) (cs : Option String) (e r : String) (now : Nat)
    (h : get_job q job_id = some j) :
    ((get_job (update_job q job_id st pp cs now) job_id).map
        ProcessingJob.status = some st
      ∧ (get_job (update_job q job_id st pp cs now) job_id).map
        ProcessingJob.updated_at = some now)
    ∧ get_job (fail_job q job_id e now) job_id =
        some { j with status := JobStatus.FAILED, error_message := some e,
                      updated_at := now }
    ∧ get_job (cancel_job q job_id now) job_id =
        some { j with status := JobStatus.CANCELLED, updated_at := now }
    ∧ get_job (complete_job q job_id r now) job_id =
        some { j with status := JobStatus.COMPLETED, result := some r,
                      completed_at := some now, progress_percent := 100,
                      processing_time :=
                        some ((now : Int) - (j.created_at : Int)) } := by
  have h' : dictGet q.jobs job_id = some j := h
  refine ⟨⟨?_, ?_⟩, ?_, ?_, ?_⟩
  · cases pp <;> by_cases hcs : stepTruthy cs <;>
      simp [update_job, get_job, dictGet_dictModify, h', hcs]
  · cases pp <;> by_cases hcs : stepTruthy cs <;>
      simp [update_job, get_job, dictGet_dictModify, h', hcs]
  · simp [fail_job, get_job, dictGet_dictModify, h']
  · simp [cancel_job, get_job, dictGet_dictModify, h']
  · simp [complete_job, get_job, dictGet_dictModify, h']

/-- **C1 (witness).** Instantiated on the COMPLETED job of
`exampleCompletedQueue`: cancelling it still rewrites status and
timestamp. -/
theorem job_ops_apply_regardless_of_terminal_status_witness :
    get_job exampleCompletedQueue "job-1" = some exampleCompletedJob
    ∧ get_job (cancel_job exampleCompletedQueue "job-1" 2) "job-1" =
        some { exampleCompletedJob with
               status := JobStatus.CANCELLED, updated_at := 2 } :=
  ⟨by decide,
    (job_ops_apply_regardless_of_terminal_status exampleCompletedQueue
      "job-1" exampleCompletedJob JobStatus.PROCESSING (some 42)
      (some "step") "err" "res2" 2 (by decide)).2.2.1⟩

/-- The second `create_job` call with the already-present id `job-1`. -/
def exampleSecondCreate : JobQueue × ProcessingJob :=
  create_job exampleJobQueue "job-1" "beta" "d2" (some 3) 5

/-- **C2 (counterexample).** The claim "create with an already-present ID
fails with DuplicateJobError and leaves the registry unchanged" is false:
`create_job` has no presence check (and the source defines no
`DuplicateJobError` at all) — re-creating `job-1` returns a fresh PENDING
record, overwrites the stored record (its `job_type` becomes `"beta"`),
and leaves the registry size at 1. -/
theorem create_job_duplicate_overwrites :
    exampleSecondCreate.2.status = JobStatus.PENDING
    ∧ (get_job exampleSecondCreate.1 "job-1").map ProcessingJob.job_type
        = some "beta"
    ∧ exampleSecondCreate.1.jobs.length = 1
    ∧ get_job exampleSecondCreate.1 "job-1" ≠ get_job exampleJobQueue "job-1"
    := by decide

/-- **C2 (amended).** `create_job` always succeeds: for every registry and
id it constructs a fresh PENDING record (result and error absent) and
stores it under the id, returning it; when the id was already present the
old record is overwritten and the registry size is unchanged, otherwise
the registry grows by one. -/
theorem create_job_always_inserts_pending
    (q : JobQueue) (job_id job_type input_data : String)
    (total_steps : Option Nat) (now : Nat) :
    (create_job q job_id job_type input_data total_steps now).2.status
        = JobStatus.PENDING
    ∧ (create_job q job_id job_type input_data total_steps now).2.result
        = none
    ∧ (create_job q job_id job_type input_data total_steps now).2.error_message
        = none
    ∧ get_job (create_job q job_id job_type input_data total_steps now).1
        job_id = some (create_job q job_id job_type input_data total_steps
          now).2
    ∧ (create_job q job_id job_type input_data total_steps now).1.jobs.length
        = (if (get_job q job_id).isSome then q.jobs.length
           else q.jobs.length + 1) := by
  refine ⟨rfl, rfl, rfl, ?_, ?_⟩
  · simp [create_job, get_job, dictGet_dictSet]
  · simp [create_job, get_job, length_dictSet]

/-- `exampleCompletedQueue` after a subsequent `fail_job` at time 2. -/
def exampleFailedAfterComplete : JobQueue :=
  fail_job exampleCompletedQueue "job-1" "boom" 2

/-- **C4 (counterexample).** The claim "the result field and the
error-message field are never both set" is false: after `complete_job`
followed by `fail_job` on the same job (terminal states being
non-absorbing), the record carries `result = "res"` and
`error_message = "boom"` simultaneously. -/
theorem complete_then_fail_sets_result_and_error :
    (get_job exampleFailedAfterComplete "job-1").map ProcessingJob.result
      = some (some "res")
    ∧ (get_job exampleFailedAfterComplete "job-1").map
        ProcessingJob.error_message = some (some "boom")
    ∧ (get_job exampleFailedAfterComplete "job-1").map ProcessingJob.status
      = some JobStatus.FAILED := by decide

/-- All records in the registry have neither result nor error set. -/
def NoResultOrError (q : JobQueue) : Prop :=
  ∀ p ∈ q.jobs, p.2.result = none ∧ p.2.error_message = none

theorem noResultOrError_applyOp (q : JobQueue) (op : Op)
    (hq : NoResultOrError q) (hop : op.setsResultOrError = false) :
    NoResultOrError (applyOp q op) := by
  cases op with
  | create job_id job_type input_data total_steps now =>
      intro p hp
      rcases mem_dictSet _ _ _ _ hp with h | h
      · subst h; exact ⟨rfl, rfl⟩
      · exact hq p h
  | update job_id st pp cs now =>
      intro p hp
      rcases mem_dictModify _ _ _ _ hp with h | ⟨v0, hv0, hpv⟩
      · exact hq p h
      · subst hpv
        have h12 := hq _ hv0
        simp only at h12
        obtain ⟨h1, h2⟩ := h12
        cases pp <;> by_cases hcs : stepTruthy cs <;>
          simp [h1, h2, hcs]
  | complete job_id r now => simp [Op.setsResultOrError] at hop
  | fail job_id e now => simp [Op.setsResultOrError] at hop
  | cancel job_id now =>
      intro p hp
      rcases mem_dictModify _ _ _ _ hp with h | ⟨v0, hv0, hpv⟩
      · exact hq p h
      · subst hpv
        obtain ⟨h1, h2⟩ := hq _ hv0
        exact ⟨h1, h2⟩
  | delete job_id =>
      intro p hp
      exact hq p (mem_dictDelete _ _ _ hp)

theorem noResultOrError_runOps (ops : List Op) (q : JobQueue)
    (hq : NoResultOrError q)
    (hops : ∀ op ∈ ops, op.setsResultOrError = false) :
    NoResultOrError (runOps q ops) := by
  induction ops generalizing q with
  | nil => exact hq
  | cons op rest ih =>
      have h1 : op.setsResultOrError = false := hops op (by simp)
      have h2 : ∀ o ∈ rest, o.setsResultOrError = false :=
        fun o ho => hops o (by simp [ho])
      simpa [runOps] using
        ih (applyOp q op) (noResultOrError_applyOp q op hq h1) h2

/-- **C4 (amended).** `result` and `error_message` are both absent in
every record reachable from the empty registry by a sequence of operations
containing no `complete_job` and no `fail_job` (`create_job` initialises
both to `None`; `update_job`, `cancel_job` and `delete_job` never touch
them).  They are, however, not mutually exclusive once both a complete and
a fail occur (see the counterexample). -/
theorem result_error_absent_without_complete_or_fail
    (ops : List Op) (hops : ∀ op ∈ ops, op.setsResultOrError = false)
    (job_id : String) (j : ProcessingJob)
    (hj : get_job (runOps JobQueue.empty ops) job_id = some j) :
    j.result = none ∧ j.error_message = none := by
  have hbase : NoResultOrError JobQueue.empty := by
    intro p hp; simp [JobQueue.empty] at hp
  exact noResultOrError_runOps ops JobQueue.empty hbase hops _
    (dictGet_mem _ _ _ hj)

/-- Operation sequence with no complete/fail: create, progress, cancel. -/
def exampleOps : List Op :=
  [Op.create "job-1" "t" "d" none 0,
   Op.update "job-1" JobStatus.PROCESSING (some 10) (some "s1") 1,
   Op.cancel "job-1" 2]

/-- The record produced by `exampleOps`. -/
def exampleCancelledJob : ProcessingJob :=
  { job_id := "job-1", status := JobStatus.CANCELLED, created_at := 0,
    updated_at := 2, job_type := "t", input_data := "d",
    progress_percent := 10, current_step := some "s1" }

/-- **C4 (witness).** The amended invariant applied to `exampleOps`. -/
theorem result_error_absent_without_complete_or_fail_witness :
    (∀ op ∈ exampleOps, op.setsResultOrError = false)
    ∧ get_job (runOps JobQueue.empty exampleOps) "job-1"
        = some exampleCancelledJob
    ∧ exampleCancelledJob.result = none
    ∧ exampleCancelledJob.error_message = none :=
  ⟨by decide, by decide,
    result_error_absent_without_complete_or_fail exampleOps (by decide)
      "job-1" exampleCancelledJob (by decide)⟩

/-- `exampleJobQueue` after progress updates to 50 then 30. -/
def exampleProgress50 : JobQueue :=
  update_job exampleJobQueue "job-1" JobStatus.PROCESSING (some 50) none 1

def exampleProgress30 : JobQueue :=
  update_job exampleProgress50 "job-1" JobStatus.PROCESSING (some 30) none 2

/-- **C8 (counterexample).** The claim "progress percent always lies
between 0 and 100 and is monotonically non-decreasing" is false:
`update_job` stores the supplied value verbatim (pydantic's `ge=0, le=100`
constraint only runs at construction, not on assignment), so progress can
drop from 50 to 30, and an update to 150 leaves the range. -/
theorem progress_percent_not_monotone :
    (get_job exampleProgress50 "job-1").map ProcessingJob.progress_percent
      = some 50
    ∧ (get_job exampleProgress30 "job-1").map ProcessingJob.progress_percent
      = some 30
    ∧ (30 : Int) < 50
    ∧ (get_job (update_job exampleJobQueue "job-1" JobStatus.PROCESSING
        (some 150) none 1) "job-1").map ProcessingJob.progress_percent
      = some 150
    ∧ (100 : Int) < 150 := by decide

/-- **C8 (amended).** `update_job` stores exactly the supplied progress
value, with no monotonicity or range enforcement; the 0–100 range holds
only where the code establishes it (`create_job` starts at 0,
`complete_job` writes 100). -/
theorem update_job_stores_progress_verbatim
    (q : JobQueue) (job_id : String) (j : ProcessingJob) (st : JobStatus)
    (p : Int) (cs : Option String) (now : Nat)
    (h : get_job q job_id = some j) :
    (get_job (update_job q job_id st (some p) cs now) job_id).map
      ProcessingJob.progress_percent = some p := by
  have h' : dictGet q.jobs job_id = some j := h
  by_cases hcs : stepTruthy cs <;>
    simp [update_job, get_job, dictGet_dictModify, h', hcs]

/-- **C8 (witness).** Storing 150 verbatim on the fresh `job-1`. -/
theorem update_job_stores_progress_verbatim_witness :
    get_job exampleJobQueue "job-1" = some exampleJob
    ∧ (get_job (update_job exampleJobQueue "job-1" JobStatus.PROCESSING
        (some 150) none 1) "job-1").map ProcessingJob.progress_percent
      = some 150 :=
  ⟨by decide,
    update_job_stores_progress_verbatim exampleJobQueue "job-1" exampleJob
      JobStatus.PROCESSING 150 none 1 (by decide)⟩

/-- **C10.** For every existing job, `update_job` with an empty-string
`current_step` leaves `current_step` at its previous value (empty strings
are falsy, so only truthy labels are stored), while the same call still
sets `status` to the given status and `updated_at` to the call time. -/
theorem empty_step_label_keeps_current_step
    (q : JobQueue) (job_id : String) (j : ProcessingJob) (st : JobStatus)
    (pp : Option Int) (now : Nat)
    (h : get_job q job_id = some j) :
    (get_job (update_job q job_id st pp (some "") now) job_id).map
        ProcessingJob.current_step = some j.current_step
    ∧ (get_job (update_job q job_id st pp (some "") now) job_id).map
        ProcessingJob.status = some st
    ∧ (get_job (update_job q job_id st pp (some "") now) job_id).map
        ProcessingJob.updated_at = some now := by
  have h' : dictGet q.jobs job_id = some j := h
  refine ⟨?_, ?_, ?_⟩ <;>
    cases pp <;> simp [update_job, get_job, dictGet_dictModify, h', stepTruthy]

/-- Registry with `job-1` in PROCESSING state and `current_step = "s1"`. -/
def exampleStepQueue : JobQueue :=
  update_job exampleJobQueue "job-1" JobStatus.PROCESSING (some 10)
    (some "s1") 1

/-- The record held by `exampleStepQueue`. -/
def exampleStepJob : ProcessingJob :=
  { job_id := "job-1", status := JobStatus.PROCESSING, created_at := 0,
    updated_at := 1, job_type := "sketch_analysis", input_data := "input",
    progress_percent := 10, current_step := some "s1" }

/-- **C10 (witness).** An empty-label update on `exampleStepQueue` keeps
`current_step = "s1"` but moves status and timestamp. -/
theorem empty_step_label_keeps_current_step_witness :
    get_job exampleStepQueue "job-1" = some exampleStepJob
    ∧ ((get_job (update_job exampleStepQueue "job-1" JobStatus.PROCESSING
          (some 20) (some "") 2) "job-1").map ProcessingJob.current_step
        = some exampleStepJob.current_step
      ∧ (get_job (update_job exampleStepQueue "job-1" JobStatus.PROCESSING
          (some 20) (some "") 2) "job-1").map ProcessingJob.status
        = some JobStatus.PROCESSING
      ∧ (get_job (update_job exampleStepQueue "job-1" JobStatus.PROCESSING
          (some 20) (some "") 2) "job-1").map ProcessingJob.updated_at
        = some 2) :=
  ⟨by decide,
    empty_step_label_keeps_current_step exampleStepQueue "job-1"
      exampleStepJob JobStatus.PROCESSING (some 20) 2 (by decide)⟩

/-- State with one image and matching sketch metadata. -/
def exampleImageState : AgentState :=
  { messages := [], images := ["img-1"], sketch_metadata := ["m-1"] }

/-- State with no images and no explicit flag, but one sketch-metadata
entry (reachable from `process_rfp` with `sketches=None` and
`metadata={"sketches": [m]}`). -/
def exampleMetadataOnlyState : AgentState :=
  { messages := [], images := [], sketch_metadata := ["m-1"] }

/-- **C3 (code bug).** Started on `exampleMetadataOnlyState`, the
classifier routes to sketch analysis, whose handler records the
state-level error `"No images found"` (and sets its `next_agent` field to
the terminal marker) — yet the engine still executes the vector-store
stage and every later stage, because `_build_workflow` wires
`sketch_analysis → vector_store_agent` as an unconditional edge and no
router ever consults `error` (or `next_agent`).  The claimed short-circuit
to the terminal marker does not happen. -/
theorem state_error_does_not_short_circuit :
    (invokeWorkflow (fun _ => 0) "generate" exampleMetadataOnlyState).2.error
      = some "No images found"
    ∧ visited (fun _ => 0) "generate" exampleMetadataOnlyState =
      [Node.input_classifier, Node.sketch_analysis, Node.vector_store_agent,
       Node.analysis_agent, Node.decision_agent, Node.generation_agent,
       Node.review_agent] := by decide

/-- **C5 (counterexample).** The claim "empty image list and unset
requires-sketch-analysis flag imply the run goes classifier → analysis and
never visits sketch analysis" is false: the classifier also routes to
sketch analysis when the sketch-metadata list is non-empty —
`exampleMetadataOnlyState` has `images = []` and the flag unset, yet the
run visits the sketch-analysis stage right after the classifier. -/
theorem sketch_metadata_alone_triggers_sketch_analysis :
    exampleMetadataOnlyState.images = []
    ∧ exampleMetadataOnlyState.requires_sketch_analysis = false
    ∧ (visited (fun _ => 0) "generate" exampleMetadataOnlyState).take 2
      = [Node.input_classifier, Node.sketch_analysis]
    ∧ Node.sketch_analysis
        ∈ visited (fun _ => 0) "generate" exampleMetadataOnlyState := by
  decide

/-- **C5 (amended).** For every state whose image list is empty, whose
sketch-metadata list is also empty, and whose requires-sketch-analysis
flag is unset, the run visits the classifier and then the analysis stage
directly, and the sketch-analysis stage is never visited. -/
theorem no_sketch_inputs_skip_sketch_analysis
    (vision : Nat → Nat) (dec : String) (s : AgentState)
    (h1 : s.images = []) (h2 : s.sketch_metadata = [])
    (h3 : s.requires_sketch_analysis = false) :
    (visited vision dec s).take 2 = [Node.input_classifier, Node.analysis_agent]
    ∧ Node.sketch_analysis ∉ visited vision dec s := by
  have hb : classifierFlag s = false := by
    simp [classifierFlag, h1, h2, h3]
  rw [visited_text_path vision dec s hb]
  by_cases hdec : dec = "generate" <;> simp [hdec]

/-- **C5 (witness).** The default (all-empty) state skips sketch
analysis. -/
theorem no_sketch_inputs_skip_sketch_analysis_witness :
    ({ messages := [] } : AgentState).images = []
    ∧ ({ messages := [] } : AgentState).sketch_metadata = []
    ∧ ({ messages := [] } : AgentState).requires_sketch_analysis = false
    ∧ ((visited (fun _ => 0) "generate" { messages := [] }).take 2
        = [Node.input_classifier, Node.analysis_agent]
      ∧ Node.sketch_analysis ∉ visited (fun _ => 0) "generate"
          { messages := [] }) :=
  ⟨rfl, rfl, rfl,
    no_sketch_inputs_skip_sketch_analysis (fun _ => 0) "generate"
      { messages := [] } rfl rfl rfl⟩

/-- **C6.** For every state with at least one image, the run visits
classifier, sketch analysis, vector store and analysis, in exactly that
order (they are the first four visited stages, and none of them recurs
later: every later stage is decision, generation or review). -/
theorem images_give_sketch_pipeline_order
    (vision : Nat → Nat) (dec : String) (s : AgentState)
    (h : s.images ≠ []) :
    (visited vision dec s).take 4 =
      [Node.input_classifier, Node.sketch_analysis,
       Node.vector_store_agent, Node.analysis_agent]
    ∧ ∀ n ∈ (visited vision dec s).drop 4,
        n = Node.decision_agent ∨ n = Node.generation_agent
          ∨ n = Node.review_agent := by
  have hb : classifierFlag s = true := by
    cases hs : s.images with
    | nil => exact absurd hs h
    | cons a l => simp [classifierFlag, hs]
  rw [visited_sketch_path vision dec s hb]
  by_cases hdec : dec = "generate" <;> simp [hdec]

/-- **C6 (witness).** Instantiated on `exampleImageState`. -/
theorem images_give_sketch_pipeline_order_witness :
    exampleImageState.images ≠ []
    ∧ ((visited (fun _ => 0) "generate" exampleImageState).take 4 =
        [Node.input_classifier, Node.sketch_analysis,
         Node.vector_store_agent, Node.analysis_agent]
      ∧ ∀ n ∈ (visited (fun _ => 0) "generate" exampleImageState).drop 4,
          n = Node.decision_agent ∨ n = Node.generation_agent
            ∨ n = Node.review_agent) :=
  ⟨by decide,
    images_give_sketch_pipeline_order (fun _ => 0) "generate"
      exampleImageState (by decide)⟩

/-- **C7.** In every run in which the decision stage sets
`decision = "reject"`, the run ends right after the decision stage: the
decision agent is the last visited stage, and the generation and review
stages are never visited. -/
theorem reject_decision_ends_run (vision : Nat → Nat) (s : AgentState) :
    (visited vision "reject" s).getLast? = some Node.decision_agent
    ∧ Node.generation_agent ∉ visited vision "reject" s
    ∧ Node.review_agent ∉ visited vision "reject" s := by
  by_cases hb : classifierFlag s = true
  · rw [visited_sketch_path vision "reject" s hb]; decide
  · have hb' : classifierFlag s = false := by
      cases hflag : classifierFlag s
      · rfl
      · exact absurd hflag hb
    rw [visited_text_path vision "reject" s hb']; decide

/-- **C9.** Calling `process_rfp` with `metadata = None` raises an
uncaught `AttributeError` while building the initial state — the first
message's f-string evaluates `metadata.get('rfp_id', 'unknown')` with no
`None` guard (the later `metadata` reads are guarded) — so the workflow is
never invoked and no stage runs. -/
theorem process_rfp_missing_metadata_attribute_error
    (rfp_text : String) (sketches : Option (List String))
    (vision : Nat → Nat) (dec : String) :
    process_rfp rfp_text sketches none vision dec
      = Except.error PyError.attributeError := rfl

end BidForge
